import Mathlib

/-!
Verification of the PC-Connect backend API core: the authorization,
assignment and audit logic of `app/routers/vms.py`, `app/routers/admin.py`,
`app/routers/auth.py`, `app/auth.py` and `app/proxmox.py`, shallowly
embedded over explicit database state and oracles for the two external
collaborators (the Proxmox hypervisor API and the GoTrue identity
provider).
-/

namespace PCConnect

/-! ## Data model (`app/models.py`) -/

/-- Row of the `users` table: GoTrue id, email, admin flag
(timestamps are not modelled). -/
structure UserRow where
  id : String
  email : String
  is_admin : Bool
  deriving Repr, DecidableEq

/-- Row of the `vm_assignments` table: surrogate id, owning user id,
Proxmox VM id, cached VM name. -/
structure AssignmentRow where
  id : Nat
  user_id : String
  vm_id : Nat
  vm_name : Option String
  deriving Repr, DecidableEq

/-- Row of the `audit_logs` table. `user_id` is nullable (FK with
`ondelete="SET NULL"`); `user_email` is denormalized and non-null. -/
structure AuditRow where
  user_id : Option String
  user_email : String
  action : String
  vm_id : Nat
  vm_name : String
  success : Bool
  error_message : Option String
  ip_address : Option String
  deriving Repr, DecidableEq

/-- The three relations of the persisted state. -/
structure DBState where
  users : List UserRow
  assignments : List AssignmentRow
  audit_logs : List AuditRow
  deriving Repr, DecidableEq

/-- A FastAPI `HTTPException`: status code and detail message. -/
structure HTTPError where
  status_code : Nat
  detail : String
  deriving Repr, DecidableEq

/-! ## Hypervisor adapter (`app/proxmox.py`) -/

/-- The raw fields the Proxmox `status.current` endpoint may return for a
VM (`cpu` is a float gauge passed through unused by the core and is not
modelled). `none` models an absent key, handled by `.get(k, default)`. -/
structure RawVMConfig where
  name : Option String
  status : Option String
  uptime : Option Nat
  mem : Option Nat
  maxmem : Option Nat
  deriving Repr, DecidableEq

/-- Oracle for the external Proxmox API: the raw status query and the three
state-mutating posts, each either succeeding or raising with a message. -/
structure ProxmoxEnv where
  statusRaw : Nat → Except String RawVMConfig
  startPost : Nat → Except String Unit
  stopPost : Nat → Except String Unit
  shutdownPost : Nat → Except String Unit

/-- Normalized VM status as returned by `ProxmoxClient.get_vm_status`. -/
structure VMStatusInfo where
  vm_id : Nat
  vm_name : String
  status : String
  uptime : Nat
  memory : Nat
  maxmem : Nat
  deriving Repr, DecidableEq

/-- `ProxmoxClient.get_vm_status`: reads the raw config and normalizes it,
wrapping any raised error's message. -/
def get_vm_status (env : ProxmoxEnv) (vm_id : Nat) : Except String VMStatusInfo :=
  match env.statusRaw vm_id with
  | .error e => .error ("Failed to get VM status: " ++ e)
  | .ok cfg =>
      .ok { vm_id := vm_id
            vm_name := cfg.name.getD ("VM-" ++ toString vm_id)
            status := cfg.status.getD "unknown"
            uptime := cfg.uptime.getD 0
            memory := cfg.mem.getD 0
            maxmem := cfg.maxmem.getD 0 }

/-- Outcome dictionary of `start_vm`/`stop_vm`/`shutdown_vm`. -/
structure ActionResult where
  success : Bool
  message : String
  vm_id : Nat
  vm_name : String
  status : String
  deriving Repr, DecidableEq

/-- An adapter control-action run: its result and whether the
state-mutating post was issued to the hypervisor. -/
structure AdapterRun where
  result : Except String ActionResult
  issued : Bool
  deriving Repr

/-- `ProxmoxClient.start_vm` with an issued-command trace: reads current
status; on status `"running"` reports a no-op with `success := false`;
otherwise posts the start command and reports `success := true` with
status `"starting"`. Any raised error is wrapped. -/
def start_vm_run (env : ProxmoxEnv) (vm_id : Nat) : AdapterRun :=
  match get_vm_status env vm_id with
  | .error e => ⟨.error ("Failed to start VM: " ++ e), false⟩
  | .ok cur =>
      if cur.status = "running" then
        ⟨.ok { success := false, message := "VM is already running",
               vm_id := vm_id, vm_name := cur.vm_name, status := "running" }, false⟩
      else
        match env.startPost vm_id with
        | .ok _ =>
            ⟨.ok { success := true, message := "VM start command sent successfully",
                   vm_id := vm_id, vm_name := cur.vm_name, status := "starting" }, true⟩
        | .error e => ⟨.error ("Failed to start VM: " ++ e), true⟩

/-- `ProxmoxClient.start_vm`, result only. -/
def start_vm (env : ProxmoxEnv) (vm_id : Nat) : Except String ActionResult :=
  (start_vm_run env vm_id).result

/-- `ProxmoxClient.stop_vm` with an issued-command trace: no-op report when
already `"stopped"`, otherwise posts the stop command. -/
def stop_vm_run (env : ProxmoxEnv) (vm_id : Nat) : AdapterRun :=
  match get_vm_status env vm_id with
  | .error e => ⟨.error ("Failed to stop VM: " ++ e), false⟩
  | .ok cur =>
      if cur.status = "stopped" then
        ⟨.ok { success := false, message := "VM is already stopped",
               vm_id := vm_id, vm_name := cur.vm_name, status := "stopped" }, false⟩
      else
        match env.stopPost vm_id with
        | .ok _ =>
            ⟨.ok { success := true, message := "VM stop command sent successfully",
                   vm_id := vm_id, vm_name := cur.vm_name, status := "stopping" }, true⟩
        | .error e => ⟨.error ("Failed to stop VM: " ++ e), true⟩

/-- `ProxmoxClient.stop_vm`, result only. -/
def stop_vm (env : ProxmoxEnv) (vm_id : Nat) : Except String ActionResult :=
  (stop_vm_run env vm_id).result

/-- `ProxmoxClient.shutdown_vm` with an issued-command trace: no-op report
when already `"stopped"`, otherwise posts the shutdown command. -/
def shutdown_vm_run (env : ProxmoxEnv) (vm_id : Nat) : AdapterRun :=
  match get_vm_status env vm_id with
  | .error e => ⟨.error ("Failed to shutdown VM: " ++ e), false⟩
  | .ok cur =>
      if cur.status = "stopped" then
        ⟨.ok { success := false, message := "VM is already stopped",
               vm_id := vm_id, vm_name := cur.vm_name, status := "stopped" }, false⟩
      else
        match env.shutdownPost vm_id with
        | .ok _ =>
            ⟨.ok { success := true, message := "VM shutdown command sent successfully",
                   vm_id := vm_id, vm_name := cur.vm_name, status := "shutting_down" }, true⟩
        | .error e => ⟨.error ("Failed to shutdown VM: " ++ e), true⟩

/-- `ProxmoxClient.shutdown_vm`, result only. -/
def shutdown_vm (env : ProxmoxEnv) (vm_id : Nat) : Except String ActionResult :=
  (shutdown_vm_run env vm_id).result

/-- Entry of the list built by `ProxmoxClient.get_all_vms`: either a full
status dictionary (no `error` key) or, for a VM whose individual query
raised, a stub with status `"unknown"` and the error string attached. -/
structure VMEntry where
  vm_id : Nat
  vm_name : String
  status : String
  uptime : Option Nat
  error : Option String
  deriving Repr, DecidableEq

/-- `ProxmoxClient.get_all_vms`, body of the loop: queries each id
individually; a per-VM failure contributes an `unknown` stub instead of
aborting the batch. -/
def get_all_vms_loop (env : ProxmoxEnv) : List Nat → List VMEntry
  | [] => []
  | vm_id :: rest =>
      (match get_vm_status env vm_id with
       | .ok s =>
           { vm_id := vm_id, vm_name := s.vm_name, status := s.status,
             uptime := some s.uptime, error := none }
       | .error e =>
           { vm_id := vm_id, vm_name := "VM-" ++ toString vm_id,
             status := "unknown", uptime := none, error := some e })
      :: get_all_vms_loop env rest

/-- `ProxmoxClient.get_all_vms`: defaults the id set to
`[106, 103, 101, 102]` when none is provided. -/
def get_all_vms (env : ProxmoxEnv) (vm_ids : Option (List Nat)) : List VMEntry :=
  get_all_vms_loop env (vm_ids.getD [106, 103, 101, 102])

/-- The batch-listing entry produced for a single VM id (one iteration of
the `get_all_vms` loop). -/
def entryOf (env : ProxmoxEnv) (vm_id : Nat) : VMEntry :=
  match get_vm_status env vm_id with
  | .ok s =>
      { vm_id := vm_id, vm_name := s.vm_name, status := s.status,
        uptime := some s.uptime, error := none }
  | .error e =>
      { vm_id := vm_id, vm_name := "VM-" ++ toString vm_id,
        status := "unknown", uptime := none, error := some e }

/-! ## VM routes (`app/routers/vms.py`) -/

/-- Authorization lookup performed by `get_vm_status` and `start_vm` for a
non-admin: is there a `VMAssignment` row matching both the user id and the
VM id? -/
def hasAssignment (db : DBState) (uid : String) (vmId : Nat) : Bool :=
  db.assignments.any (fun a => a.user_id == uid && a.vm_id == vmId)

/-- Response schema `VMResponse`. -/
structure VMResponse where
  vm_id : Nat
  vm_name : String
  status : String
  uptime : Option Nat
  assigned_user : Option String
  can_control : Bool
  deriving Repr, DecidableEq

/-- Response schema `VMListResponse`. -/
structure VMListResponse where
  vms : List VMResponse
  total : Nat
  deriving Repr, DecidableEq

/-- Outcome of the `GET /vms/id/status` handler: the HTTP response and
whether the hypervisor adapter was reached (the permission check passed). -/
structure StatusOutcome where
  response : Except HTTPError VMResponse
  adapterCalled : Bool

/-- `get_vm_status` route handler: denies 403 when the caller is neither
admin nor assigned to `vm_id`; otherwise queries the adapter and wraps any
raised error as a 500. -/
def router_get_vm_status (env : ProxmoxEnv) (user : UserRow) (db : DBState)
    (vm_id : Nat) : StatusOutcome :=
  if !user.is_admin && !hasAssignment db user.id vm_id then
    ⟨.error ⟨403, "You don't have access to this VM"⟩, false⟩
  else
    match get_vm_status env vm_id with
    | .ok s =>
        ⟨.ok { vm_id := s.vm_id, vm_name := s.vm_name, status := s.status,
               uptime := some s.uptime,
               assigned_user := if !user.is_admin then some user.email else none,
               can_control := true }, true⟩
    | .error e => ⟨.error ⟨500, "Failed to get VM status: " ++ e⟩, true⟩

/-- Outcome of the `POST /vms/id/start` handler: the HTTP response, the
final `audit_logs` table, and whether the adapter was reached. -/
structure StartOutcome where
  response : Except HTTPError ActionResult
  audit_logs : List AuditRow
  adapterCalled : Bool

/-- `start_vm` route handler. `commitA`/`commitB` are oracles for the two
`db.commit()` call sites (success path and except path). A commit that
raises rolls back its pending insert; the success-path commit raising
transfers control to the handler's `except` block, which inserts a
failure row with the raised error's message and responds 500. A raise out
of the except-path commit escapes the handler (a bare 500, no row kept). -/
def router_start_vm (env : ProxmoxEnv) (commitA commitB : Except String Unit)
    (user : UserRow) (db : DBState) (vm_id : Nat) (ip : Option String) :
    StartOutcome :=
  if !user.is_admin && !hasAssignment db user.id vm_id then
    ⟨.error ⟨403, "You don't have access to this VM"⟩, db.audit_logs, false⟩
  else
    match start_vm env vm_id with
    | .ok r =>
        match commitA with
        | .ok _ =>
            ⟨.ok r,
             db.audit_logs ++
               [{ user_id := some user.id, user_email := user.email,
                  action := "start", vm_id := vm_id, vm_name := r.vm_name,
                  success := r.success,
                  error_message := if r.success then none else some r.message,
                  ip_address := ip }], true⟩
        | .error m =>
            match commitB with
            | .ok _ =>
                ⟨.error ⟨500, "Failed to start VM: " ++ m⟩,
                 db.audit_logs ++
                   [{ user_id := some user.id, user_email := user.email,
                      action := "start", vm_id := vm_id,
                      vm_name := "VM-" ++ toString vm_id, success := false,
                      error_message := some m, ip_address := ip }], true⟩
            | .error _ =>
                ⟨.error ⟨500, "Internal Server Error"⟩, db.audit_logs, true⟩
    | .error e =>
        match commitB with
        | .ok _ =>
            ⟨.error ⟨500, "Failed to start VM: " ++ e⟩,
             db.audit_logs ++
               [{ user_id := some user.id, user_email := user.email,
                  action := "start", vm_id := vm_id,
                  vm_name := "VM-" ++ toString vm_id, success := false,
                  error_message := some e, ip_address := ip }], true⟩
        | .error _ =>
            ⟨.error ⟨500, "Internal Server Error"⟩, db.audit_logs, true⟩

/-- Owner-email annotation of the admin branch of `list_vms`:
`assignment_map` is a dict comprehension keyed by `vm_id` (last row wins),
then the owning user's email is looked up. -/
def assignedEmail (db : DBState) (vmId : Nat) : Option String :=
  match db.assignments.reverse.find? (fun a => a.vm_id == vmId) with
  | none => none
  | some a =>
      match db.users.find? (fun u => u.id == a.user_id) with
      | none => none
      | some u => some u.email

/-- `list_vms` route handler. Admins get every VM of the live listing,
annotated with the assigned owner's email. A non-admin gets an empty list
without an assignment, exactly their assigned VM when its id occurs in the
live listing, and otherwise the 404 raised inside the handler's `try` is
caught by its blanket `except` and re-raised as a 500. -/
def router_list_vms (env : ProxmoxEnv) (user : UserRow) (db : DBState) :
    Except HTTPError VMListResponse :=
  let all_vms := get_all_vms env none
  if user.is_admin then
    .ok { vms := all_vms.map (fun vm =>
            { vm_id := vm.vm_id, vm_name := vm.vm_name, status := vm.status,
              uptime := vm.uptime, assigned_user := assignedEmail db vm.vm_id,
              can_control := true }),
          total := all_vms.length }
  else
    match db.assignments.find? (fun a => a.user_id == user.id) with
    | none => .ok { vms := [], total := 0 }
    | some a =>
        match all_vms.find? (fun vm => vm.vm_id == a.vm_id) with
        | none =>
            .error ⟨500, "Failed to fetch VMs: 404: Assigned VM " ++
                         toString a.vm_id ++ " not found in Proxmox"⟩
        | some vm =>
            .ok { vms := [{ vm_id := vm.vm_id, vm_name := vm.vm_name,
                            status := vm.status, uptime := vm.uptime,
                            assigned_user := some user.email,
                            can_control := true }],
                  total := 1 }

/-! ## Admin routes (`app/routers/admin.py`) -/

/-- `assign_vm_to_user` route handler (`POST /admin/vm-assignments`), after
admin gating: 404 when the user row is absent, 400 when the user already
has an assignment, 404 when the adapter cannot confirm the VM exists, and
otherwise inserts a row snapshotting the VM's name. `nextId` models the
autoincrement surrogate key. -/
def assign_vm_to_user (env : ProxmoxEnv) (db : DBState) (user_id : String)
    (vm_id : Nat) (nextId : Nat) : Except HTTPError AssignmentRow × DBState :=
  match db.users.find? (fun u => u.id == user_id) with
  | none => (.error ⟨404, "User not found"⟩, db)
  | some _ =>
      match db.assignments.find? (fun a => a.user_id == user_id) with
      | some ex =>
          (.error ⟨400, "User already has VM " ++ toString ex.vm_id ++ " assigned"⟩, db)
      | none =>
          match get_vm_status env vm_id with
          | .error e =>
              (.error ⟨404, "VM " ++ toString vm_id ++ " not found in Proxmox: " ++ e⟩, db)
          | .ok st =>
              let row : AssignmentRow :=
                { id := nextId, user_id := user_id, vm_id := vm_id,
                  vm_name := some st.vm_name }
              (.ok row, { db with assignments := db.assignments ++ [row] })

/-- `delete_user` route handler (`DELETE /admin/users/id`), after admin
gating. The relational effects are those declared in `app/models.py`:
`vm_assignments.user_id` has `ondelete="CASCADE"` (rows removed) and
`audit_logs.user_id` has `ondelete="SET NULL"` (rows kept, id nulled). -/
def delete_user (db : DBState) (user_id : String) :
    Except HTTPError String × DBState :=
  match db.users.find? (fun u => u.id == user_id) with
  | none => (.error ⟨404, "User not found"⟩, db)
  | some u =>
      (.ok ("User " ++ u.email ++ " deleted successfully"),
       { users := db.users.filter (fun w => !(w.id == user_id))
         assignments := db.assignments.filter (fun a => !(a.user_id == user_id))
         audit_logs := db.audit_logs.map (fun r =>
           if r.user_id = some user_id then { r with user_id := none } else r) })

/-- The one-assignment-per-user invariant backed by the schema's
`UniqueConstraint` on `vm_assignments.user_id`. -/
def atMostOneAssignmentPerUser (db : DBState) : Prop :=
  ∀ uid : String, (db.assignments.filter (fun a => a.user_id == uid)).length ≤ 1

/-! ## Identity gateway (`app/auth.py`, `app/routers/auth.py`) -/

/-- Claims of a decoded GoTrue JWT payload relevant to resolution; `none`
models an absent claim. -/
structure TokenPayload where
  sub : Option String
  email : Option String
  deriving Repr, DecidableEq

/-- Oracle for `GoTrueClient.verify_token`: the decode either fails
(expired signature / invalid token) or yields a payload. -/
inductive TokenVerifyResult where
  | expired
  | invalid
  | ok (payload : TokenPayload)
  deriving Repr, DecidableEq

/-- Python truthiness of an optional string claim (`None` and `""` are
falsy). -/
def pyTruthy : Option String → Bool
  | none => false
  | some s => !(s == "")

/-- `get_current_user` dependency: verifies the bearer token, rejects
payloads without truthy `sub` and `email` claims, then resolves the
subject id against the local `users` table — failing, never
auto-provisioning, when no row exists. -/
def get_current_user (tv : TokenVerifyResult) (db : DBState) :
    Except HTTPError UserRow :=
  match tv with
  | .expired => .error ⟨401, "Token has expired"⟩
  | .invalid => .error ⟨401, "Invalid token"⟩
  | .ok p =>
      if !pyTruthy p.sub || !pyTruthy p.email then
        .error ⟨401, "Invalid token payload"⟩
      else
        match p.sub with
        | none => .error ⟨401, "Invalid token payload"⟩
        | some uid =>
            match db.users.find? (fun u => u.id == uid) with
            | none => .error ⟨404, "User not found in database"⟩
            | some u => .ok u

/-- The `user` object inside a GoTrue password-grant response body. -/
structure AuthUserBody where
  id : Option String
  email : Option String
  deriving Repr, DecidableEq

/-- A GoTrue password-grant response body. -/
structure AuthBody where
  access_token : String
  expires_in : Option Nat
  user : AuthUserBody
  deriving Repr, DecidableEq

/-- Oracle for the outbound GoTrue login call: either a transport error
(`httpx.RequestError`) or an HTTP response with a status code and body. -/
inductive ProviderLoginResult where
  | transportErr
  | httpResp (status_code : Nat) (body : AuthBody)
  deriving Repr, DecidableEq

/-- `GoTrueClient.login`: 503 on transport failure, 401 on any non-200
provider status, otherwise the response body. -/
def gotrue_login (pr : ProviderLoginResult) : Except HTTPError AuthBody :=
  match pr with
  | .transportErr => .error ⟨503, "Authentication service unavailable"⟩
  | .httpResp code body =>
      if code ≠ 200 then .error ⟨401, "Invalid credentials"⟩
      else .ok body

/-- Response schema `TokenResponse` (the embedded `UserResponse` is the
user row). -/
structure TokenResponse where
  access_token : String
  token_type : String
  expires_in : Nat
  user : UserRow
  deriving Repr, DecidableEq

/-- `login` route handler (`POST /auth/login`): authenticates via GoTrue,
rejects success bodies without truthy user id and email, then fetches the
local user by the provider's subject id or creates one with
`is_admin := false`. -/
def router_login (pr : ProviderLoginResult) (db : DBState) :
    Except HTTPError TokenResponse × DBState :=
  match gotrue_login pr with
  | .error e => (.error e, db)
  | .ok body =>
      match body.user.id, body.user.email with
      | some uid, some em =>
          if uid == "" || em == "" then
            (.error ⟨500, "Invalid authentication response"⟩, db)
          else
            match db.users.find? (fun u => u.id == uid) with
            | some u =>
                (.ok { access_token := body.access_token, token_type := "bearer",
                       expires_in := body.expires_in.getD 3600, user := u }, db)
            | none =>
                let u : UserRow := { id := uid, email := em, is_admin := false }
                (.ok { access_token := body.access_token, token_type := "bearer",
                       expires_in := body.expires_in.getD 3600, user := u },
                 { db with users := db.users ++ [u] })
      | _, _ => (.error ⟨500, "Invalid authentication response"⟩, db)

/-! ## Concrete fixtures for closed instances -/

/-- A raw Proxmox config reporting a fixed status string. -/
def rawOf (st : String) : RawVMConfig :=
  { name := some "ws", status := some st, uptime := some 5, mem := none, maxmem := none }

/-- Hypervisor oracle reporting the same status for every VM id, with all
command posts succeeding. -/
def envConst (st : String) : ProxmoxEnv :=
  { statusRaw := fun _ => .ok (rawOf st)
    startPost := fun _ => .ok ()
    stopPost := fun _ => .ok ()
    shutdownPost := fun _ => .ok () }

/-- Hypervisor oracle whose status query raises for VM 103 only. -/
def envOneDown : ProxmoxEnv :=
  { statusRaw := fun vid => if vid == 103 then .error "connection refused" else .ok (rawOf "running")
    startPost := fun _ => .ok ()
    stopPost := fun _ => .ok ()
    shutdownPost := fun _ => .ok () }

/-- An admin user row. -/
def uAdmin : UserRow := { id := "adm1", email := "admin@example.com", is_admin := true }

/-- A non-admin user row, assigned VM 101 in `dbDemo`. -/
def uAlice : UserRow := { id := "alice", email := "alice@example.com", is_admin := false }

/-- A non-admin user row with no assignment in `dbDemo`. -/
def uBob : UserRow := { id := "bob", email := "bob@example.com", is_admin := false }

/-- Alice's assignment row: VM 101. -/
def rowAlice : AssignmentRow := { id := 1, user_id := "alice", vm_id := 101, vm_name := some "ws" }

/-- A pre-existing audit row referencing Alice. -/
def auditOld : AuditRow :=
  { user_id := some "alice", user_email := "alice@example.com", action := "start",
    vm_id := 101, vm_name := "ws", success := true, error_message := none,
    ip_address := some "10.0.0.9" }

/-- Demo database: an admin, Alice (assigned VM 101), Bob (unassigned), one
audit row. -/
def dbDemo : DBState :=
  { users := [uAdmin, uAlice, uBob], assignments := [rowAlice], audit_logs := [auditOld] }

/-- Database whose single assignment references VM 999, absent from the
default live listing. -/
def dbStale : DBState :=
  { users := [uAdmin, uAlice],
    assignments := [{ id := 1, user_id := "alice", vm_id := 999, vm_name := some "ws" }],
    audit_logs := [] }

/-! ## Theorems -/

/-- C1: for authenticated requests to `GET /vms/id/status` and
`POST /vms/id/start`, an admin is allowed unconditionally; a non-admin is
allowed exactly when a `VMAssignment` row matches both their user id and
the VM id; every other case is denied with 403 Forbidden. -/
theorem c1_vm_operation_authorization (env : ProxmoxEnv)
    (cA cB : Except String Unit) (user : UserRow) (db : DBState)
    (vm_id : Nat) (ip : Option String) :
    ((router_get_vm_status env user db vm_id).adapterCalled
        = (user.is_admin || hasAssignment db user.id vm_id)) ∧
    ((router_start_vm env cA cB user db vm_id ip).adapterCalled
        = (user.is_admin || hasAssignment db user.id vm_id)) ∧
    (user.is_admin = false → hasAssignment db user.id vm_id = false →
      (router_get_vm_status env user db vm_id).response
          = .error ⟨403, "You don't have access to this VM"⟩ ∧
      (router_start_vm env cA cB user db vm_id ip).response
          = .error ⟨403, "You don't have access to this VM"⟩) := by
  refine ⟨?_, ?_, fun hA hB => ?_⟩
  · unfold router_get_vm_status
    cases hA : user.is_admin <;> cases hB : hasAssignment db user.id vm_id <;>
      simp <;> (cases get_vm_status env vm_id <;> rfl)
  · unfold router_start_vm
    cases hA : user.is_admin <;> cases hB : hasAssignment db user.id vm_id <;>
      simp <;> (cases start_vm env vm_id <;> cases cA <;> cases cB <;> rfl)
  · unfold router_get_vm_status router_start_vm
    simp [hA, hB]

/-- C1 closed instance: Bob (non-admin, unassigned) is denied 403 on VM
102; Alice (non-admin) is allowed on her assigned VM 101; the admin is
allowed on VM 102. -/
theorem c1_vm_operation_authorization_witness :
    (router_get_vm_status (envConst "running") uBob dbDemo 102).response
        = .error ⟨403, "You don't have access to this VM"⟩ ∧
    ((router_start_vm (envConst "running") (.ok ()) (.ok ()) uAlice dbDemo 101 none).adapterCalled
        = true) ∧
    ((router_get_vm_status (envConst "running") uAdmin dbDemo 102).adapterCalled
        = true) := by
  refine ⟨?_, ?_, ?_⟩
  · exact ((c1_vm_operation_authorization (envConst "running") (.ok ()) (.ok ())
      uBob dbDemo 102 none).2.2 (by decide) (by decide)).1
  · exact (c1_vm_operation_authorization (envConst "running") (.ok ()) (.ok ())
      uAlice dbDemo 101 none).2.1.trans (by decide)
  · exact (c1_vm_operation_authorization (envConst "running") (.ok ()) (.ok ())
      uAdmin dbDemo 102 none).1.trans (by decide)

/-- C9: a non-admin `POST /vms/id/start` with no matching assignment is
rejected 403 before any hypervisor call and inserts no audit row; in
general the handler only changes the audit trail when the adapter was
reached. -/
theorem c9_denied_start_leaves_state (env : ProxmoxEnv)
    (cA cB : Except String Unit) (user : UserRow) (db : DBState)
    (vm_id : Nat) (ip : Option String) :
    ((router_start_vm env cA cB user db vm_id ip).adapterCalled = false →
       (router_start_vm env cA cB user db vm_id ip).audit_logs = db.audit_logs) ∧
    (user.is_admin = false → hasAssignment db user.id vm_id = false →
       (router_start_vm env cA cB user db vm_id ip).response
           = .error ⟨403, "You don't have access to this VM"⟩ ∧
       (router_start_vm env cA cB user db vm_id ip).audit_logs = db.audit_logs ∧
       (router_start_vm env cA cB user db vm_id ip).adapterCalled = false) := by
  refine ⟨fun h => ?_, fun hA hB => ?_⟩
  · unfold router_start_vm at h ⊢
    cases hA : user.is_admin <;> cases hB : hasAssignment db user.id vm_id <;>
      cases hs : start_vm env vm_id <;> cases cA <;> cases cB <;> simp_all
  · unfold router_start_vm
    simp [hA, hB]

/-- C9 closed instance: Bob starting the unassigned VM 102 gets a 403, the
audit table is unchanged, the adapter is never reached. -/
theorem c9_denied_start_leaves_state_witness :
    (router_start_vm (envConst "stopped") (.ok ()) (.ok ()) uBob dbDemo 102 none).response
        = .error ⟨403, "You don't have access to this VM"⟩ ∧
    (router_start_vm (envConst "stopped") (.ok ()) (.ok ()) uBob dbDemo 102 none).audit_logs
        = dbDemo.audit_logs ∧
    (router_start_vm (envConst "stopped") (.ok ()) (.ok ()) uBob dbDemo 102 none).adapterCalled
        = false :=
  (c9_denied_start_leaves_state (envConst "stopped") (.ok ()) (.ok ())
    uBob dbDemo 102 none).2 (by decide) (by decide)

/-- C3: with the live status read succeeding, `start` on an already
running VM (and `stop`/`shutdown` on an already stopped VM) return a
non-raising no-op outcome with `success := false`, an explanatory message
and the current unchanged state; in every other live state the adapter
issues the command and, when the post goes through, returns
`success := true` with the transitional label. -/
theorem c3_adapter_noop_and_transition (env : ProxmoxEnv) (vm_id : Nat)
    (cur : VMStatusInfo) (h : get_vm_status env vm_id = .ok cur) :
    (cur.status = "running" →
       start_vm env vm_id = .ok ⟨false, "VM is already running", vm_id, cur.vm_name, "running"⟩) ∧
    (cur.status ≠ "running" → env.startPost vm_id = .ok () →
       start_vm env vm_id = .ok ⟨true, "VM start command sent successfully", vm_id, cur.vm_name, "starting"⟩) ∧
    (cur.status = "stopped" →
       stop_vm env vm_id = .ok ⟨false, "VM is already stopped", vm_id, cur.vm_name, "stopped"⟩) ∧
    (cur.status ≠ "stopped" → env.stopPost vm_id = .ok () →
       stop_vm env vm_id = .ok ⟨true, "VM stop command sent successfully", vm_id, cur.vm_name, "stopping"⟩) ∧
    (cur.status = "stopped" →
       shutdown_vm env vm_id = .ok ⟨false, "VM is already stopped", vm_id, cur.vm_name, "stopped"⟩) ∧
    (cur.status ≠ "stopped" → env.shutdownPost vm_id = .ok () →
       shutdown_vm env vm_id = .ok ⟨true, "VM shutdown command sent successfully", vm_id, cur.vm_name, "shutting_down"⟩) := by
  unfold start_vm stop_vm shutdown_vm start_vm_run stop_vm_run shutdown_vm_run
  rw [h]
  refine ⟨fun hs => ?_, fun hs hp => ?_, fun hs => ?_, fun hs hp => ?_,
          fun hs => ?_, fun hs hp => ?_⟩
  · simp [hs]
  · simp [hs, hp]
  · simp [hs]
  · simp [hs, hp]
  · simp [hs]
  · simp [hs, hp]

/-- C3 closed instance: starting a VM reported `"running"` is a no-op
report; starting a VM reported `"stopped"` sends the command and reports
the transitional `"starting"` state. -/
theorem c3_adapter_noop_and_transition_witness :
    start_vm (envConst "running") 101
      = .ok ⟨false, "VM is already running", 101, "ws", "running"⟩ ∧
    start_vm (envConst "stopped") 101
      = .ok ⟨true, "VM start command sent successfully", 101, "ws", "starting"⟩ :=
  ⟨(c3_adapter_noop_and_transition (envConst "running") 101 _ rfl).1 rfl,
   (c3_adapter_noop_and_transition (envConst "stopped") 101 _ rfl).2.1
     (by decide) rfl⟩

/-- C10: the adapter's no-op detection is exact string equality with the
single target state — the mutating command is issued exactly when the
reported status differs from it (`"running"` for start, `"stopped"` for
stop and shutdown); on any other state, `"paused"` and `"unknown"`
included, a successful post yields `success := true` with the
transitional label. -/
theorem c10_exact_target_comparison (env : ProxmoxEnv) (vm_id : Nat)
    (cur : VMStatusInfo) (h : get_vm_status env vm_id = .ok cur) :
    (cur.status = "running" → (start_vm_run env vm_id).issued = false) ∧
    (cur.status ≠ "running" → (start_vm_run env vm_id).issued = true) ∧
    (cur.status = "stopped" → (stop_vm_run env vm_id).issued = false) ∧
    (cur.status ≠ "stopped" → (stop_vm_run env vm_id).issued = true) ∧
    (cur.status = "stopped" → (shutdown_vm_run env vm_id).issued = false) ∧
    (cur.status ≠ "stopped" → (shutdown_vm_run env vm_id).issued = true) ∧
    (cur.status ≠ "running" → env.startPost vm_id = .ok () →
       start_vm env vm_id = .ok ⟨true, "VM start command sent successfully", vm_id, cur.vm_name, "starting"⟩) ∧
    (cur.status ≠ "stopped" → env.stopPost vm_id = .ok () →
       stop_vm env vm_id = .ok ⟨true, "VM stop command sent successfully", vm_id, cur.vm_name, "stopping"⟩) ∧
    (cur.status ≠ "stopped" → env.shutdownPost vm_id = .ok () →
       shutdown_vm env vm_id = .ok ⟨true, "VM shutdown command sent successfully", vm_id, cur.vm_name, "shutting_down"⟩) := by
  unfold start_vm stop_vm shutdown_vm start_vm_run stop_vm_run shutdown_vm_run
  rw [h]
  refine ⟨fun hs => ?_, fun hs => ?_, fun hs => ?_, fun hs => ?_, fun hs => ?_,
          fun hs => ?_, fun hs hp => ?_, fun hs hp => ?_, fun hs hp => ?_⟩
  · simp [hs]
  · cases env.startPost vm_id <;> simp [hs]
  · simp [hs]
  · cases env.stopPost vm_id <;> simp [hs]
  · simp [hs]
  · cases env.shutdownPost vm_id <;> simp [hs]
  · simp [hs, hp]
  · simp [hs, hp]
  · simp [hs, hp]

/-- C10 closed instance: on reported status `"paused"` and `"unknown"` the
start command is issued and reports the transitional `"starting"` state
rather than a no-op. -/
theorem c10_exact_target_comparison_witness :
    (start_vm_run (envConst "paused") 101).issued = true ∧
    start_vm (envConst "paused") 101
      = .ok ⟨true, "VM start command sent successfully", 101, "ws", "starting"⟩ ∧
    start_vm (envConst "unknown") 101
      = .ok ⟨true, "VM start command sent successfully", 101, "ws", "starting"⟩ :=
  ⟨(c10_exact_target_comparison (envConst "paused") 101 _ rfl).2.1 (by decide),
   (c10_exact_target_comparison (envConst "paused") 101 _ rfl).2.2.2.2.2.2.1 (by decide) rfl,
   (c10_exact_target_comparison (envConst "unknown") 101 _ rfl).2.2.2.2.2.2.1 (by decide) rfl⟩

/-- C2 counterexample: the adapter call returns with reported
`success := true` (the VM was stopped and the start command went
through), yet when the success-path audit commit raises ("disk full") the
handler takes its exception path — the one persisted row carries
`success := false` with the commit error's message instead of the
adapter's reported flag, and the response becomes a 500 error instead of
the already-determined successful outcome. -/
theorem c2_audit_exactly_once_counterexample :
    start_vm (envConst "stopped") 101
      = .ok ⟨true, "VM start command sent successfully", 101, "ws", "starting"⟩ ∧
    (router_start_vm (envConst "stopped") (.error "disk full") (.ok ())
        uAdmin dbDemo 101 none).response
      = .error ⟨500, "Failed to start VM: disk full"⟩ ∧
    (router_start_vm (envConst "stopped") (.error "disk full") (.ok ())
        uAdmin dbDemo 101 none).audit_logs
      = dbDemo.audit_logs ++
          [{ user_id := some "adm1", user_email := "admin@example.com",
             action := "start", vm_id := 101, vm_name := "VM-101",
             success := false, error_message := some "disk full",
             ip_address := none }] := by
  refine ⟨rfl, rfl, rfl⟩

/-- C2 amended: for an authorized `POST /vms/id/start`, when the audit
commit succeeds exactly one row is inserted — carrying the adapter's
reported success flag when the adapter returns, or `success := false` and
the exception's message when it raises — and the response reflects the
adapter outcome. But the audit insert shares the adapter call's exception
handler: a failed success-path audit commit sends the handler down the
failure path, which persists a failure row carrying the commit error's
message and responds 500, altering the already-determined outcome. -/
theorem c2_audit_exactly_once_amended (env : ProxmoxEnv)
    (cB : Except String Unit) (user : UserRow) (db : DBState)
    (vm_id : Nat) (ip : Option String)
    (hall : (user.is_admin || hasAssignment db user.id vm_id) = true) :
    (∀ r, start_vm env vm_id = .ok r →
       (router_start_vm env (.ok ()) cB user db vm_id ip).response = .ok r ∧
       (router_start_vm env (.ok ()) cB user db vm_id ip).audit_logs
         = db.audit_logs ++
             [{ user_id := some user.id, user_email := user.email,
                action := "start", vm_id := vm_id, vm_name := r.vm_name,
                success := r.success,
                error_message := if r.success then none else some r.message,
                ip_address := ip }]) ∧
    (∀ e, start_vm env vm_id = .error e →
       (router_start_vm env (.ok ()) (.ok ()) user db vm_id ip).response
         = .error ⟨500, "Failed to start VM: " ++ e⟩ ∧
       (router_start_vm env (.ok ()) (.ok ()) user db vm_id ip).audit_logs
         = db.audit_logs ++
             [{ user_id := some user.id, user_email := user.email,
                action := "start", vm_id := vm_id,
                vm_name := "VM-" ++ toString vm_id, success := false,
                error_message := some e, ip_address := ip }]) ∧
    (∀ r m, start_vm env vm_id = .ok r →
       (router_start_vm env (.error m) (.ok ()) user db vm_id ip).response
         = .error ⟨500, "Failed to start VM: " ++ m⟩ ∧
       (router_start_vm env (.error m) (.ok ()) user db vm_id ip).audit_logs
         = db.audit_logs ++
             [{ user_id := some user.id, user_email := user.email,
                action := "start", vm_id := vm_id,
                vm_name := "VM-" ++ toString vm_id, success := false,
                error_message := some m, ip_address := ip }]) := by
  have hcond : (!user.is_admin && !hasAssignment db user.id vm_id) = false := by
    cases hA : user.is_admin <;> cases hB : hasAssignment db user.id vm_id <;>
      simp_all
  refine ⟨fun r hr => ?_, fun e he => ?_, fun r m hr => ?_⟩
  · unfold router_start_vm
    simp [hcond, hr]
  · unfold router_start_vm
    simp [hcond, he]
  · unfold router_start_vm
    simp [hcond, hr]

/-- C2 amended, closed instance: with the commit succeeding, Alice
starting her stopped VM 101 gets the adapter's success outcome and
exactly one audit row carrying `success := true`. -/
theorem c2_audit_exactly_once_amended_witness :
    (router_start_vm (envConst "stopped") (.ok ()) (.ok ())
        uAlice dbDemo 101 (some "10.0.0.7")).response
      = .ok ⟨true, "VM start command sent successfully", 101, "ws", "starting"⟩ ∧
    (router_start_vm (envConst "stopped") (.ok ()) (.ok ())
        uAlice dbDemo 101 (some "10.0.0.7")).audit_logs
      = dbDemo.audit_logs ++
          [{ user_id := some "alice", user_email := "alice@example.com",
             action := "start", vm_id := 101, vm_name := "ws",
             success := true, error_message := none,
             ip_address := some "10.0.0.7" }] := by
  have h := (c2_audit_exactly_once_amended (envConst "stopped") (.ok ())
    uAlice dbDemo 101 (some "10.0.0.7") (by decide)).1
    ⟨true, "VM start command sent successfully", 101, "ws", "starting"⟩ rfl
  exact ⟨h.1, h.2.trans rfl⟩

/-- The `get_all_vms` loop produces exactly the per-id entries, in
order. -/
theorem get_all_vms_loop_eq_map (env : ProxmoxEnv) (ids : List Nat) :
    get_all_vms_loop env ids = ids.map (entryOf env) := by
  induction ids with
  | nil => rfl
  | cons id rest ih =>
      rw [get_all_vms_loop, List.map_cons, ih]
      cases hq : get_vm_status env id <;> simp [entryOf, hq]

/-- Every per-id entry keeps the requested VM id. -/
theorem entryOf_vm_id (env : ProxmoxEnv) (vm_id : Nat) :
    (entryOf env vm_id).vm_id = vm_id := by
  unfold entryOf
  cases get_vm_status env vm_id <;> rfl

/-- C7: batch VM listing queries each id of the provided (or default) set
individually; the result has exactly one entry per requested id, in
order; an id whose query raised appears with status `"unknown"` and the
error string attached, while ids whose query succeeded report their live
name, status, uptime and no error. -/
theorem c7_batch_listing_isolation (env : ProxmoxEnv) (ids : List Nat) :
    ((get_all_vms env (some ids)).map (fun e => e.vm_id) = ids) ∧
    (∀ entry ∈ get_all_vms env (some ids),
       (∀ err, get_vm_status env entry.vm_id = .error err →
          entry.status = "unknown" ∧ entry.error = some err ∧
          entry.vm_name = "VM-" ++ toString entry.vm_id ∧ entry.uptime = none) ∧
       (∀ s, get_vm_status env entry.vm_id = .ok s →
          entry.vm_name = s.vm_name ∧ entry.status = s.status ∧
          entry.uptime = some s.uptime ∧ entry.error = none)) ∧
    (get_all_vms env none = get_all_vms env (some [106, 103, 101, 102])) := by
  refine ⟨?_, fun entry hmem => ?_, rfl⟩
  · rw [get_all_vms, Option.getD, get_all_vms_loop_eq_map, List.map_map]
    have : ((fun e : VMEntry => e.vm_id) ∘ entryOf env) = fun id => id := by
      funext id
      exact entryOf_vm_id env id
    rw [this, List.map_id']
  · rw [get_all_vms, Option.getD, get_all_vms_loop_eq_map] at hmem
    obtain ⟨id, _, rfl⟩ := List.mem_map.mp hmem
    rw [entryOf_vm_id]
    unfold entryOf
    cases hq : get_vm_status env id <;>
      refine ⟨fun err herr => ?_, fun s hs => ?_⟩ <;> simp_all

/-- C7 closed instance: four requested ids with VM 103 erroring yield four
entries, three normal and one `"unknown"` with the error attached. -/
theorem c7_batch_listing_isolation_witness :
    ((get_all_vms envOneDown (some [106, 103, 101, 102])).map (fun e => e.vm_id)
        = [106, 103, 101, 102]) ∧
    (get_all_vms envOneDown (some [106, 103, 101, 102])).length = 4 ∧
    ((get_all_vms envOneDown (some [106, 103, 101, 102])).map (fun e => e.status)
        = ["running", "unknown", "running", "running"]) ∧
    ((get_all_vms envOneDown (some [106, 103, 101, 102])).map (fun e => e.error)
        = [none, some "Failed to get VM status: connection refused", none, none]) := by
  refine ⟨(c7_batch_listing_isolation envOneDown [106, 103, 101, 102]).1, rfl, ?_, ?_⟩
  · have h := (c7_batch_listing_isolation envOneDown [106, 103, 101, 102]).2.1
    have h103 := h (entryOf envOneDown 103) (by decide)
    have := (h103.1 "Failed to get VM status: connection refused" rfl).1
    decide
  · decide

/-- C4: a non-admin `GET /vms` yields an empty list with no assignment
row, exactly the one assigned VM when its id occurs in the live listing,
and a hard 500 error — never an empty or partial list — when the assigned
id is absent from the live listing. -/
theorem c4_nonadmin_listing (env : ProxmoxEnv) (user : UserRow)
    (db : DBState) (h : user.is_admin = false) :
    (db.assignments.find? (fun a => a.user_id == user.id) = none →
       router_list_vms env user db = .ok ⟨[], 0⟩) ∧
    (∀ a, db.assignments.find? (fun a => a.user_id == user.id) = some a →
       (∀ vm, (get_all_vms env none).find? (fun v => v.vm_id == a.vm_id) = some vm →
          router_list_vms env user db
            = .ok ⟨[⟨vm.vm_id, vm.vm_name, vm.status, vm.uptime, some user.email, true⟩], 1⟩) ∧
       ((get_all_vms env none).find? (fun v => v.vm_id == a.vm_id) = none →
          router_list_vms env user db
            = .error ⟨500, "Failed to fetch VMs: 404: Assigned VM " ++
                           toString a.vm_id ++ " not found in Proxmox"⟩)) := by
  refine ⟨fun hn => ?_, fun a ha => ⟨fun vm hvm => ?_, fun hmiss => ?_⟩⟩
  · unfold router_list_vms
    simp [h, hn]
  · unfold router_list_vms
    simp [h, ha, hvm]
  · unfold router_list_vms
    simp [h, ha, hmiss]

/-- C4 closed instance: unassigned Bob gets an empty list; Alice
(assigned VM 101, present in the live listing) gets exactly that entry;
Alice with a stale assignment to VM 999 gets the hard error. -/
theorem c4_nonadmin_listing_witness :
    router_list_vms (envConst "running") uBob dbDemo = .ok ⟨[], 0⟩ ∧
    router_list_vms (envConst "running") uAlice dbDemo
      = .ok ⟨[⟨101, "ws", "running", some 5, some "alice@example.com", true⟩], 1⟩ ∧
    router_list_vms (envConst "running") uAlice dbStale
      = .error ⟨500, "Failed to fetch VMs: 404: Assigned VM 999 not found in Proxmox"⟩ := by
  refine ⟨?_, ?_, ?_⟩
  · exact (c4_nonadmin_listing (envConst "running") uBob dbDemo rfl).1 (by decide)
  · exact ((c4_nonadmin_listing (envConst "running") uAlice dbDemo rfl).2
      rowAlice (by decide)).1 ⟨101, "ws", "running", some 5, none⟩ (by decide)
  · exact ((c4_nonadmin_listing (envConst "running") uAlice dbStale rfl).2
      ⟨1, "alice", 999, some "ws"⟩ (by decide)).2 (by decide)

/-- C5: assignment creation 404s when the user row is absent, 400s when
the user already has any assignment row, 404s when the hypervisor cannot
confirm the VM id, inserts no row on any failure path, snapshots the VM's
name on success, and preserves the one-assignment-per-user invariant. -/
theorem c5_assignment_creation (env : ProxmoxEnv) (db : DBState)
    (user_id : String) (vm_id : Nat) (nextId : Nat) :
    (db.users.find? (fun u => u.id == user_id) = none →
       assign_vm_to_user env db user_id vm_id nextId
         = (.error ⟨404, "User not found"⟩, db)) ∧
    (∀ u, db.users.find? (fun u => u.id == user_id) = some u →
       ∀ ex, db.assignments.find? (fun a => a.user_id == user_id) = some ex →
         assign_vm_to_user env db user_id vm_id nextId
           = (.error ⟨400, "User already has VM " ++ toString ex.vm_id ++ " assigned"⟩, db)) ∧
    (∀ u, db.users.find? (fun u => u.id == user_id) = some u →
       db.assignments.find? (fun a => a.user_id == user_id) = none →
       ∀ e, get_vm_status env vm_id = .error e →
         assign_vm_to_user env db user_id vm_id nextId
           = (.error ⟨404, "VM " ++ toString vm_id ++ " not found in Proxmox: " ++ e⟩, db)) ∧
    (∀ u, db.users.find? (fun u => u.id == user_id) = some u →
       db.assignments.find? (fun a => a.user_id == user_id) = none →
       ∀ st, get_vm_status env vm_id = .ok st →
         assign_vm_to_user env db user_id vm_id nextId
           = (.ok ⟨nextId, user_id, vm_id, some st.vm_name⟩,
              { db with assignments :=
                  db.assignments ++ [⟨nextId, user_id, vm_id, some st.vm_name⟩] })) ∧
    (atMostOneAssignmentPerUser db →
       atMostOneAssignmentPerUser (assign_vm_to_user env db user_id vm_id nextId).2) := by
  refine ⟨fun hu => ?_, fun u hu ex hex => ?_, fun u hu hex e he => ?_,
          fun u hu hex st hst => ?_, fun hinv => ?_⟩
  · unfold assign_vm_to_user
    simp [hu]
  · unfold assign_vm_to_user
    simp [hu, hex]
  · unfold assign_vm_to_user
    simp [hu, hex, he]
  · unfold assign_vm_to_user
    simp [hu, hex, hst]
  · unfold assign_vm_to_user
    unfold atMostOneAssignmentPerUser at hinv ⊢
    cases hu : db.users.find? (fun u => u.id == user_id) with
    | none => exact hinv
    | some u =>
      cases hex : db.assignments.find? (fun a => a.user_id == user_id) with
      | none =>
        cases hst : get_vm_status env vm_id with
        | error e => exact hinv
        | ok st =>
          intro uid
          simp only [List.filter_append, List.length_append]
          by_cases huid : user_id = uid
          · subst huid
            have hfilter : db.assignments.filter
                (fun a : AssignmentRow => a.user_id == user_id) = [] := by
              refine List.filter_eq_nil_iff.mpr (fun a ha => ?_)
              exact List.find?_eq_none.mp hex a ha
            simp [hfilter]
          · have hrow : List.filter (fun a : AssignmentRow => a.user_id == uid)
                [{ id := nextId, user_id := user_id, vm_id := vm_id,
                   vm_name := some st.vm_name }] = [] := by
              simp [huid]
            simpa [hrow] using hinv uid
      | some ex => exact hinv

/-- C5 closed instances: unknown user 404s, Alice's duplicate assignment
400s, an unconfirmable VM 404s (each leaving the database unchanged), and
assigning Bob VM 102 inserts exactly the snapshotting row. -/
theorem c5_assignment_creation_witness :
    assign_vm_to_user (envConst "running") dbDemo "ghost" 102 7
      = (.error ⟨404, "User not found"⟩, dbDemo) ∧
    assign_vm_to_user (envConst "running") dbDemo "alice" 102 7
      = (.error ⟨400, "User already has VM 101 assigned"⟩, dbDemo) ∧
    assign_vm_to_user envOneDown dbDemo "bob" 103 7
      = (.error ⟨404, "VM 103 not found in Proxmox: Failed to get VM status: connection refused"⟩,
         dbDemo) ∧
    assign_vm_to_user (envConst "running") dbDemo "bob" 102 7
      = (.ok ⟨7, "bob", 102, some "ws"⟩,
         { dbDemo with assignments := dbDemo.assignments ++ [⟨7, "bob", 102, some "ws"⟩] }) := by
  refine ⟨?_, ?_, ?_, ?_⟩
  · exact (c5_assignment_creation (envConst "running") dbDemo "ghost" 102 7).1 (by decide)
  · exact (c5_assignment_creation (envConst "running") dbDemo "alice" 102 7).2.1
      uAlice (by decide) rowAlice (by decide)
  · exact (c5_assignment_creation envOneDown dbDemo "bob" 103 7).2.2.1
      uBob (by decide) (by decide) "Failed to get VM status: connection refused" rfl
  · exact (c5_assignment_creation (envConst "running") dbDemo "bob" 102 7).2.2.2.1
      uBob (by decide) (by decide) ⟨102, "ws", "running", 5, 0, 0⟩ rfl

/-- C6: deleting an existing user removes their assignment rows by
cascade — a subsequent assignment lookup for that user id finds none —
while every pre-existing audit row survives in place with `user_id`
nulled exactly where it referenced the deleted user and every other
field (the denormalized email included) unchanged. -/
theorem c6_user_deletion_cascade (db : DBState) (uid : String) (u : UserRow)
    (h : db.users.find? (fun w => w.id == uid) = some u) :
    ((delete_user db uid).2.assignments.find? (fun a => a.user_id == uid) = none) ∧
    ((delete_user db uid).2.audit_logs.length = db.audit_logs.length) ∧
    (∀ i, ∀ hi : i < db.audit_logs.length,
       ∀ hi2 : i < (delete_user db uid).2.audit_logs.length,
       ((delete_user db uid).2.audit_logs[i].user_id
           = (if db.audit_logs[i].user_id = some uid then none
              else db.audit_logs[i].user_id)) ∧
       (delete_user db uid).2.audit_logs[i].user_email = db.audit_logs[i].user_email ∧
       (delete_user db uid).2.audit_logs[i].action = db.audit_logs[i].action ∧
       (delete_user db uid).2.audit_logs[i].vm_id = db.audit_logs[i].vm_id ∧
       (delete_user db uid).2.audit_logs[i].vm_name = db.audit_logs[i].vm_name ∧
       (delete_user db uid).2.audit_logs[i].success = db.audit_logs[i].success ∧
       (delete_user db uid).2.audit_logs[i].error_message = db.audit_logs[i].error_message ∧
       (delete_user db uid).2.audit_logs[i].ip_address = db.audit_logs[i].ip_address) := by
  unfold delete_user
  rw [h]
  refine ⟨?_, by simp, fun i hi hi2 => ?_⟩
  · refine List.find?_eq_none.mpr (fun a ha => ?_)
    have := (List.mem_filter.mp ha).2
    simp at this
    simp [this]
  · simp only [List.getElem_map]
    by_cases hc : db.audit_logs[i].user_id = some uid <;> simp [hc]

/-- C6 closed instance: deleting Alice empties her assignment lookup and
leaves the one audit row with `user_id` nulled and her email intact. -/
theorem c6_user_deletion_cascade_witness :
    (delete_user dbDemo "alice").2.assignments.find? (fun a => a.user_id == "alice") = none ∧
    (delete_user dbDemo "alice").2.audit_logs.map (fun r => r.user_id) = [none] ∧
    (delete_user dbDemo "alice").2.audit_logs.map (fun r => r.user_email)
      = ["alice@example.com"] := by
  refine ⟨(c6_user_deletion_cascade dbDemo "alice" uAlice (by decide)).1, by decide, by decide⟩

/-- C8: login succeeds exactly on provider acceptance — 401 on provider
rejection, 503 on transport failure; a well-formed acceptance returns the
provider's token and the existing local user for the returned subject id,
or creates one with `is_admin := false`. Bearer-token resolution, by
contrast, maps a valid token whose subject has no local row to an error
and never creates a user. -/
theorem c8_login_provision_resolution (db : DBState) :
    (router_login .transportErr db
       = (.error ⟨503, "Authentication service unavailable"⟩, db)) ∧
    (∀ code body, code ≠ 200 →
       router_login (.httpResp code body) db
         = (.error ⟨401, "Invalid credentials"⟩, db)) ∧
    (∀ body uid em, body.user.id = some uid → body.user.email = some em →
       uid ≠ "" → em ≠ "" →
       (∀ u, db.users.find? (fun w => w.id == uid) = some u →
          router_login (.httpResp 200 body) db
            = (.ok ⟨body.access_token, "bearer", body.expires_in.getD 3600, u⟩, db)) ∧
       (db.users.find? (fun w => w.id == uid) = none →
          router_login (.httpResp 200 body) db
            = (.ok ⟨body.access_token, "bearer", body.expires_in.getD 3600,
                    ⟨uid, em, false⟩⟩,
               { db with users := db.users ++ [⟨uid, em, false⟩] }))) ∧
    (∀ p uid, p.sub = some uid → pyTruthy p.sub = true → pyTruthy p.email = true →
       db.users.find? (fun w => w.id == uid) = none →
       get_current_user (.ok p) db = .error ⟨404, "User not found in database"⟩) := by
  refine ⟨rfl, fun code body hc => ?_, fun body uid em hid hem hu hm => ⟨fun u hf => ?_, fun hf => ?_⟩,
          fun p uid hs ht he hf => ?_⟩
  · unfold router_login gotrue_login
    simp [hc]
  · unfold router_login gotrue_login
    simp [hid, hem, hu, hm, hf]
  · unfold router_login gotrue_login
    simp [hid, hem, hu, hm, hf]
  · unfold get_current_user
    rw [hs] at ht
    simp [hs, ht, he, hf]

/-- C8 closed instances: transport failure gives 503; provider rejection
gives 401; acceptance for an unknown subject creates a non-admin local
user; acceptance for Alice returns her existing row unchanged; a valid
bearer token for an unprovisioned subject resolves to the 404 error. -/
theorem c8_login_provision_resolution_witness :
    (router_login .transportErr dbDemo
       = (.error ⟨503, "Authentication service unavailable"⟩, dbDemo)) ∧
    (router_login (.httpResp 400 ⟨"t", none, ⟨some "alice", some "alice@example.com"⟩⟩) dbDemo
       = (.error ⟨401, "Invalid credentials"⟩, dbDemo)) ∧
    (router_login (.httpResp 200 ⟨"tok9", some 7200, ⟨some "carol", some "carol@example.com"⟩⟩) dbDemo
       = (.ok ⟨"tok9", "bearer", 7200, ⟨"carol", "carol@example.com", false⟩⟩,
          { dbDemo with users := dbDemo.users ++ [⟨"carol", "carol@example.com", false⟩] })) ∧
    (router_login (.httpResp 200 ⟨"tok3", none, ⟨some "alice", some "alice@example.com"⟩⟩) dbDemo
       = (.ok ⟨"tok3", "bearer", 3600, uAlice⟩, dbDemo)) ∧
    (get_current_user (.ok ⟨some "carol", some "carol@example.com"⟩) dbDemo
       = .error ⟨404, "User not found in database"⟩) := by
  refine ⟨(c8_login_provision_resolution dbDemo).1, ?_, ?_, ?_, ?_⟩
  · exact (c8_login_provision_resolution dbDemo).2.1 400
      ⟨"t", none, ⟨some "alice", some "alice@example.com"⟩⟩ (by decide)
  · exact ((c8_login_provision_resolution dbDemo).2.2.1
      ⟨"tok9", some 7200, ⟨some "carol", some "carol@example.com"⟩⟩
      "carol" "carol@example.com" rfl rfl (by decide) (by decide)).2 (by decide)
  · exact ((c8_login_provision_resolution dbDemo).2.2.1
      ⟨"tok3", none, ⟨some "alice", some "alice@example.com"⟩⟩
      "alice" "alice@example.com" rfl rfl (by decide) (by decide)).1 uAlice (by decide)
  · exact (c8_login_provision_resolution dbDemo).2.2.2
      ⟨some "carol", some "carol@example.com"⟩ "carol" rfl (by decide) (by decide) (by decide)

end PCConnect
